import Mathlib

/-!
Shallow embedding of the express-supertest-api repository.

Sources embedded:
- the `ApiCall` request-builder facade and the `ApiMethods` enumeration
  (src/tests/api.test.ts);
- the CRUD user service routes (src/express-app/app.js) and the user
  schema with its defaults (src/express-app/models.js).

The superagent/supertest request object, the transport and the mongoose
document store are external collaborators of the repository; they are
modelled by explicit state (a `Test` record of the request fields the
wrapper mutates, a `Transport` outcome for the dispatched exchange, and a
list of stored user documents), following the behaviour the wrapper relies
on: `req.set` writes headers, `req.query` appends query pairs, `req.send`
accumulates body payloads, `req.type` sets the content type, `req.expect`
registers checks evaluated at dispatch, and mongoose queries match only
fields that stored documents actually persist.
-/

namespace ESA

/-- The string values of the eight members of the `ApiMethods` enumeration. -/
def apiMethodsValues : List String :=
  ["GET", "POST", "PATCH", "PUT", "DELETE", "HEAD", "OPTIONS", "TRACE"]

/-- The agent dispatch selected by the constructor (which verb-specific
supertest agent call the facade will dispatch through). -/
inductive AgentVerb where
  | get
  | post
  | patch
  | put
  | delete
  | head
  | options
  | trace
deriving DecidableEq

/-- Embeds `ApiCall.getTest`: a first-match switch over the method value.
The source lists the `POST` case twice (the second, returning
`this._agent.patch('')`, is dead code) and has no `PATCH` case at all, so a
`PATCH` argument reaches the default branch and throws. -/
def getTest (method : String) : Except String AgentVerb :=
  if method = "GET" then Except.ok AgentVerb.get
  else if method = "POST" then Except.ok AgentVerb.post
  else if method = "POST" then Except.ok AgentVerb.patch
  else if method = "PUT" then Except.ok AgentVerb.put
  else if method = "DELETE" then Except.ok AgentVerb.delete
  else if method = "HEAD" then Except.ok AgentVerb.head
  else if method = "OPTIONS" then Except.ok AgentVerb.options
  else if method = "TRACE" then Except.ok AgentVerb.trace
  else Except.error ("Invalid HTTP method provided.")

/-- A payload handed to superagent `req.send`: a raw string or a structured
record of fields. -/
inductive SendVal where
  | str (s : String)
  | obj (fields : List (String × String))
deriving DecidableEq

/-- A declarative check registered through supertest `req.expect`. -/
inductive Assert where
  | status (n : Nat)
  | bodyEq (b : SendVal)
  | headerEq (field value : String)
deriving DecidableEq

/-- The request under construction: the fields of the underlying
superagent/supertest request object that the wrapper's configuration
methods mutate. -/
structure Test where
  headers : List (String × String) := []
  query : List (String × String) := []
  queryRaw : List String := []
  bodySends : List SendVal := []
  contentType : Option String := none
  accept : Option String := none
  asserts : List Assert := []
  retryCount : Nat := 0
  redirectLimit : Option Nat := none
  timeoutMs : Option Nat := none
deriving DecidableEq

/-- Models superagent `req.set(key, value)`: overwrite or append one header. -/
def Test.set (t : Test) (k v : String) : Test :=
  { t with headers := t.headers.filter (fun p => p.1 != k) ++ [(k, v)] }

/-- Models superagent `req.unset(key)`: remove one header. -/
def Test.unset (t : Test) (k : String) : Test :=
  { t with headers := t.headers.filter (fun p => p.1 != k) }

/-- Models superagent `req.type(value)`: set the content type. -/
def Test.type (t : Test) (v : String) : Test :=
  { t with contentType := some v }

/-- Models superagent `req.query(object)`: append the object's pairs to the
query parameters. -/
def Test.queryObj (t : Test) (pairs : List (String × String)) : Test :=
  { t with query := t.query ++ pairs }

/-- Models superagent `req.query(string)`: append a raw query string. -/
def Test.queryStr (t : Test) (s : String) : Test :=
  { t with queryRaw := t.queryRaw ++ [s] }

/-- Models superagent `req.send(value)`: accumulate a body payload. -/
def Test.send (t : Test) (v : SendVal) : Test :=
  { t with bodySends := t.bodySends ++ [v] }

/-- Models supertest `req.expect(...)`: register one declarative check. -/
def Test.expect (t : Test) (a : Assert) : Test :=
  { t with asserts := t.asserts ++ [a] }

/-- Models superagent `req.retry(count)`. -/
def Test.retry (t : Test) (n : Nat) : Test :=
  { t with retryCount := n }

/-- Models superagent `req.redirects(count)`. -/
def Test.redirects (t : Test) (n : Nat) : Test :=
  { t with redirectLimit := some n }

/-- Models superagent `req.timeout(ms)`. -/
def Test.timeout (t : Test) (ms : Nat) : Test :=
  { t with timeoutMs := some ms }

/-- Models superagent `req.clearTimeout()`. -/
def Test.clearTimeoutReq (t : Test) : Test :=
  { t with timeoutMs := none }

/-- The response object the transport resolves with. -/
structure Response where
  statusCode : Nat
  body : SendVal
  text : String
  headers : List (String × String)
  type : String
  xhr : Option String := none
deriving DecidableEq

/-- Derived classification `res.clientError` (4xx). -/
def Response.clientError (r : Response) : Bool :=
  decide (400 ≤ r.statusCode) && decide (r.statusCode < 500)

/-- Derived classification `res.serverError` (5xx). -/
def Response.serverError (r : Response) : Bool :=
  decide (500 ≤ r.statusCode) && decide (r.statusCode < 600)

/-- Derived classification `res.ok` (2xx). -/
def Response.okFlag (r : Response) : Bool :=
  decide (200 ≤ r.statusCode) && decide (r.statusCode < 300)

/-- Derived classification `res.unauthorized` (401). -/
def Response.unauthorized (r : Response) : Bool :=
  decide (r.statusCode = 401)

/-- Models superagent `res.get(headerName)`: look up one response header. -/
def Response.get (r : Response) (headerName : String) : Option String :=
  r.headers.lookup headerName

/-- A value stored in the facade's `res` field: the transport response, or
whatever value a `done` handler returned in its place. -/
inductive ResVal where
  | response (r : Response)
  | handlerValue (tag : String)
deriving DecidableEq

/-- Reading `.body` off the stored value (undefined on a non-response). -/
def ResVal.bodyField : ResVal → Option SendVal
  | .response r => some r.body
  | .handlerValue _ => none

/-- Reading `.text` off the stored value. -/
def ResVal.textField : ResVal → Option String
  | .response r => some r.text
  | .handlerValue _ => none

/-- Reading `.headers` off the stored value. -/
def ResVal.headersField : ResVal → Option (List (String × String))
  | .response r => some r.headers
  | .handlerValue _ => none

/-- Reading `.type` off the stored value. -/
def ResVal.typeField : ResVal → Option String
  | .response r => some r.type
  | .handlerValue _ => none

/-- Reading `.statusCode` off the stored value. -/
def ResVal.statusCodeField : ResVal → Option Nat
  | .response r => some r.statusCode
  | .handlerValue _ => none

/-- Reading `.get(headerName)` off the stored value. -/
def ResVal.getField (headerName : String) : ResVal → Option String
  | .response r => r.get headerName
  | .handlerValue _ => none

/-- Reading `.clientError` off the stored value. -/
def ResVal.clientErrorField : ResVal → Option Bool
  | .response r => some r.clientError
  | .handlerValue _ => none

/-- Reading `.serverError` off the stored value. -/
def ResVal.serverErrorField : ResVal → Option Bool
  | .response r => some r.serverError
  | .handlerValue _ => none

/-- Reading `.ok` off the stored value. -/
def ResVal.okField : ResVal → Option Bool
  | .response r => some r.okFlag
  | .handlerValue _ => none

/-- Reading `.unauthorized` off the stored value. -/
def ResVal.unauthorizedField : ResVal → Option Bool
  | .response r => some r.unauthorized
  | .handlerValue _ => none

/-- Reading `.xhr` off the stored value. -/
def ResVal.xhrField : ResVal → Option (Option String)
  | .response r => some r.xhr
  | .handlerValue _ => none

/-- The state of one `ApiCall` facade: the endpoint and verb fixed at
construction, the request under construction, and the `res` field, which is
`undefined` (none) until a `done` dispatch resolves. -/
structure ApiCallState where
  endpoint : String
  verb : AgentVerb
  req : Test := {}
  res : Option ResVal := none
deriving DecidableEq

/-- Embeds the `ApiCall` constructor: store the endpoint, create the agent,
and select the request via `getTest`, whose throw propagates. -/
def mkApiCall (endpoint method : String) : Except String ApiCallState :=
  (getTest method).map fun v =>
    { endpoint := endpoint, verb := v, req := {}, res := none }

/-- Embeds `ApiCall.setHeaders`: `req.set(headers)` over every pair. -/
def ApiCall.setHeaders (s : ApiCallState) (hs : List (String × String)) : ApiCallState :=
  { s with req := hs.foldl (fun t p => t.set p.1 p.2) s.req }

/-- Embeds `ApiCall.setHeader`: `req.set(key, value)`. -/
def ApiCall.setHeader (s : ApiCallState) (k v : String) : ApiCallState :=
  { s with req := s.req.set k v }

/-- Embeds `ApiCall.unsetHeader`: `req.unset(key)`. -/
def ApiCall.unsetHeader (s : ApiCallState) (k : String) : ApiCallState :=
  { s with req := s.req.unset k }

/-- Embeds `ApiCall.setContentType`: `req.type(value)`. -/
def ApiCall.setContentType (s : ApiCallState) (v : String) : ApiCallState :=
  { s with req := s.req.type v }

/-- Embeds `ApiCall.setQueryParam` as written in the source: `req.query`
receives the object literal with properties literally named `key` and
`value` (shorthand for the two arguments), not a `key → value` pair. -/
def ApiCall.setQueryParam (s : ApiCallState) (key value : String) : ApiCallState :=
  { s with req := s.req.queryObj [("key", key), ("value", value)] }

/-- Embeds `ApiCall.setQueryParams`: `req.query(query)` with the given pairs. -/
def ApiCall.setQueryParams (s : ApiCallState) (q : List (String × String)) : ApiCallState :=
  { s with req := s.req.queryObj q }

/-- Embeds `ApiCall.setQuery`: `req.query(query)` with a raw string. -/
def ApiCall.setQuery (s : ApiCallState) (q : String) : ApiCallState :=
  { s with req := s.req.queryStr q }

/-- Embeds `ApiCall.setBody`: `req.send(body)`. -/
def ApiCall.setBody (s : ApiCallState) (b : SendVal) : ApiCallState :=
  { s with req := s.req.send b }

/-- Embeds `ApiCall.setType` as written in the source: the body-type argument
is passed to `req.send(type)`, i.e. appended to the body. -/
def ApiCall.setType (s : ApiCallState) (ty : String) : ApiCallState :=
  { s with req := s.req.send (SendVal.str ty) }

/-- Embeds `ApiCall.setAccept` as written in the source: the accept-type
argument is passed to `req.send(type)`, i.e. appended to the body. -/
def ApiCall.setAccept (s : ApiCallState) (ty : String) : ApiCallState :=
  { s with req := s.req.send (SendVal.str ty) }

/-- Embeds `ApiCall.setBearerAuthToken`: `req.set` of the Authorization
header with the Bearer prefix. -/
def ApiCall.setBearerAuthToken (s : ApiCallState) (token : String) : ApiCallState :=
  { s with req := s.req.set ("Authorization") ("Bearer " ++ token) }

/-- Embeds `ApiCall.setRetry`: `req.retry(count)`. -/
def ApiCall.setRetry (s : ApiCallState) (n : Nat) : ApiCallState :=
  { s with req := s.req.retry n }

/-- Embeds `ApiCall.setRedirect`: `req.redirects(count)`. -/
def ApiCall.setRedirect (s : ApiCallState) (n : Nat) : ApiCallState :=
  { s with req := s.req.redirects n }

/-- Embeds `ApiCall.setTimeout`: `req.timeout(ms)`. -/
def ApiCall.setTimeout (s : ApiCallState) (ms : Nat) : ApiCallState :=
  { s with req := s.req.timeout ms }

/-- Embeds `ApiCall.clearTimeout`: `req.clearTimeout()`. -/
def ApiCall.clearTimeout (s : ApiCallState) : ApiCallState :=
  { s with req := s.req.clearTimeoutReq }

/-- Embeds `ApiCall.expectStatus`: `req.expect(status)`. -/
def ApiCall.expectStatus (s : ApiCallState) (n : Nat) : ApiCallState :=
  { s with req := s.req.expect (Assert.status n) }

/-- Embeds `ApiCall.expectBody`: `req.expect(body)`. -/
def ApiCall.expectBody (s : ApiCallState) (b : SendVal) : ApiCallState :=
  { s with req := s.req.expect (Assert.bodyEq b) }

/-- Embeds `ApiCall.expectField`: `req.expect(fieldName, value)`. -/
def ApiCall.expectField (s : ApiCallState) (f v : String) : ApiCallState :=
  { s with req := s.req.expect (Assert.headerEq f v) }

/-- The supertest status-assertion failure message: reports the expected
status against the actual one. -/
def statusMismatchMsg (expected actual : Nat) : String :=
  "expected " ++ toString expected ++ ", got " ++ toString actual

/-- Evaluates one registered check against the actual response, returning
the mismatch message when it fails. -/
def runAssert (r : Response) : Assert → Option String
  | .status n =>
    if r.statusCode = n then none else some (statusMismatchMsg n r.statusCode)
  | .bodyEq b =>
    if r.body = b then none else some ("body mismatch")
  | .headerEq f v =>
    if r.get f = some v then none else some ("header " ++ f ++ " mismatch")

/-- Evaluates the registered checks in order; the first failure wins. -/
def runAsserts (asserts : List Assert) (r : Response) : Option String :=
  asserts.findSome? (runAssert r)

/-- The raw transport result of the dispatched exchange, before the
registered checks are evaluated. -/
inductive Transport where
  | ok (r : Response)
  | err (e : String)

/-- The outcome the dispatched supertest request settles with: a transport
error rejects; otherwise a failed registered check rejects with its
mismatch message; otherwise the response resolves. -/
def testOutcome (t : Test) (tr : Transport) : Except String Response :=
  match tr with
  | .err e => Except.error e
  | .ok r =>
    match runAsserts t.asserts r with
    | some msg => Except.error msg
    | none => Except.ok r

/-- Promise `then(onfulfilled, onrejected)` semantics: a present handler
replaces the settled value with its return value; an absent onfulfilled
passes the response through; an absent onrejected propagates the rejection. -/
def promThen (out : Except String Response)
    (onfulfilled : Option (Response → ResVal))
    (onrejected : Option (String → ResVal)) : Except String ResVal :=
  match out with
  | .ok r =>
    match onfulfilled with
    | some f => Except.ok (f r)
    | none => Except.ok (ResVal.response r)
  | .error e =>
    match onrejected with
    | some g => Except.ok (g e)
    | none => Except.error e

/-- Embeds `ApiCall.done`: `this.res = await this.req.then(onfulfilled,
onrejected)` and the stored value is returned; on a rejection the await
throws, so `res` is never assigned. -/
def ApiCall.done (s : ApiCallState) (tr : Transport)
    (onfulfilled : Option (Response → ResVal))
    (onrejected : Option (String → ResVal)) :
    Except String (ApiCallState × ResVal) :=
  match promThen (testOutcome s.req tr) onfulfilled onrejected with
  | .ok v => Except.ok ({ s with res := some v }, v)
  | .error e => Except.error e

/-- Embeds `ApiCall.end` (named `endCall` because `end` is reserved in
Lean): `this.req.end(callback)` invokes the callback with the error and
response pair and returns nothing; `this.res` is never assigned. -/
def ApiCall.endCall (s : ApiCallState) (tr : Transport) :
    ApiCallState × (Option String × Option Response) :=
  (s, match testOutcome s.req tr with
      | .ok r => (none, some r)
      | .error e => (some e, none))

/-- The uninitialized-response error message thrown by the guarded
accessors. -/
def uninitMsg : String :=
  "Response is undefined. Make sure to call the API call method first."

/-- The `if (this.res) ... else throw` guard shared by the response
accessors. -/
def guardedRead {α : Type} (s : ApiCallState) (f : ResVal → α) : Except String α :=
  match s.res with
  | some v => Except.ok (f v)
  | none => Except.error uninitMsg

/-- Embeds `ApiCall.getResponseText`. -/
def ApiCall.getResponseText (s : ApiCallState) : Except String (Option String) :=
  guardedRead s ResVal.textField

/-- Embeds `ApiCall.getResponseBody`. -/
def ApiCall.getResponseBody (s : ApiCallState) : Except String (Option SendVal) :=
  guardedRead s ResVal.bodyField

/-- Embeds `ApiCall.getResponseHeaders`. -/
def ApiCall.getResponseHeaders (s : ApiCallState) :
    Except String (Option (List (String × String))) :=
  guardedRead s ResVal.headersField

/-- Embeds `ApiCall.getResponseHeader`. -/
def ApiCall.getResponseHeader (s : ApiCallState) (headerName : String) :
    Except String (Option String) :=
  guardedRead s (ResVal.getField headerName)

/-- Embeds `ApiCall.getResponseContentType`. -/
def ApiCall.getResponseContentType (s : ApiCallState) : Except String (Option String) :=
  guardedRead s ResVal.typeField

/-- Embeds `ApiCall.getResponseStatusCode`. -/
def ApiCall.getResponseStatusCode (s : ApiCallState) : Except String (Option Nat) :=
  guardedRead s ResVal.statusCodeField

/-- Embeds `ApiCall.getRawResponse`: `return this.res`, with no guard and no
throw. -/
def ApiCall.getRawResponse (s : ApiCallState) : Except String (Option ResVal) :=
  Except.ok s.res

/-- Embeds `ApiCall.clientErrorResponse`. -/
def ApiCall.clientErrorResponse (s : ApiCallState) : Except String (Option Bool) :=
  guardedRead s ResVal.clientErrorField

/-- Embeds `ApiCall.serverErrorResponse`. -/
def ApiCall.serverErrorResponse (s : ApiCallState) : Except String (Option Bool) :=
  guardedRead s ResVal.serverErrorField

/-- Embeds `ApiCall.okResponse`. -/
def ApiCall.okResponse (s : ApiCallState) : Except String (Option Bool) :=
  guardedRead s ResVal.okField

/-- Embeds `ApiCall.unAuthorizedResponse`. -/
def ApiCall.unAuthorizedResponse (s : ApiCallState) : Except String (Option Bool) :=
  guardedRead s ResVal.unauthorizedField

/-- Embeds `ApiCall.getXHR`. -/
def ApiCall.getXHR (s : ApiCallState) : Except String (Option (Option String)) :=
  guardedRead s ResVal.xhrField

/-!
CRUD user service (src/express-app/app.js with src/express-app/models.js).
The mongoose store is modelled as a list of stored documents; a stored
document holds the schema paths plus the store-assigned `_id`, and a query
filter matches a document only on fields the document actually persists.
-/

/-- A field value inside a stored document or a query filter. -/
inductive FieldVal where
  | str (s : String)
  | num (n : Int)
  | bool (b : Bool)
deriving DecidableEq

/-- A stored User document: the schema paths (`name`, `job`, `age`,
`isMarried`) plus the identity key `_id` assigned by the store on creation. -/
structure UserRecord where
  _id : String
  name : String
  job : String
  age : Int
  isMarried : Bool
deriving DecidableEq

/-- The persisted fields of a stored document, by name: only the schema
paths and `_id`. No stored document has a field named `id`. -/
def UserRecord.fields (u : UserRecord) : List (String × FieldVal) :=
  [("_id", FieldVal.str u._id), ("name", FieldVal.str u.name),
   ("job", FieldVal.str u.job), ("age", FieldVal.num u.age),
   ("isMarried", FieldVal.bool u.isMarried)]

/-- Mongo query-filter matching: every filter pair must equal the
corresponding persisted field of the document. -/
def matchesFilter (filter : List (String × FieldVal)) (u : UserRecord) : Bool :=
  filter.all fun p => u.fields.lookup p.1 == some p.2

/-- A request body for create/update: the schema paths, each optional. -/
structure UserBody where
  name : Option String := none
  job : Option String := none
  age : Option Int := none
  isMarried : Option Bool := none
deriving DecidableEq

/-- Models a mongoose update with a plain object: set each supplied path on
the document, keeping the rest. -/
def applySet (body : UserBody) (u : UserRecord) : UserRecord :=
  { u with
    name := body.name.getD u.name
    job := body.job.getD u.job
    age := body.age.getD u.age
    isMarried := body.isMarried.getD u.isMarried }

/-- Models `Model.updateOne(filter, body)`: apply the update to the first
document matching the filter, if any. -/
def updateOne (filter : List (String × FieldVal)) (body : UserBody) :
    List UserRecord → List UserRecord
  | [] => []
  | u :: rest =>
    if matchesFilter filter u then applySet body u :: rest
    else u :: updateOne filter body rest

/-- Models `Model.findById(id)`: the first document whose `_id` equals the
given id, or null. -/
def findById (store : List UserRecord) (i : String) : Option UserRecord :=
  store.find? fun u => u._id == i

/-- Models `Model.find()`: all stored documents. -/
def findAll (store : List UserRecord) : List UserRecord :=
  store

/-- Models `Model.findByIdAndDelete(id)`: remove and return the document
with the given `_id`, or leave the store unchanged and return null. -/
def findByIdAndDelete (store : List UserRecord) (i : String) :
    List UserRecord × Option UserRecord :=
  match findById store i with
  | none => (store, none)
  | some u => (store.eraseP (fun v => v._id == i), some u)

/-- Models `new User(body).save()`: validation rejects when a required path
(`name`, `job`, `age`) is absent; otherwise the store assigns the identity
key and the schema fills the `isMarried` default `true`. -/
def saveNewUser (nextId : String) (body : UserBody) : Except String UserRecord :=
  match body.name, body.job, body.age with
  | some n, some j, some a =>
    Except.ok
      { _id := nextId, name := n, job := j, age := a,
        isMarried := body.isMarried.getD true }
  | _, _, _ => Except.error ("User validation failed")

/-- A route response body: a record, an array of records, or JSON null. -/
inductive RouteBody where
  | user (u : UserRecord)
  | userList (l : List UserRecord)
  | null
deriving DecidableEq

/-- An HTTP response produced by a route handler. -/
structure RouteResponse where
  status : Nat
  body : RouteBody
deriving DecidableEq

/-- `res.json` of a possibly-null document. -/
def jsonOfUser : Option UserRecord → RouteBody
  | some u => RouteBody.user u
  | none => RouteBody.null

/-- Embeds the `GET /users` handler: find all, respond 200. -/
def getUsers (store : List UserRecord) : List UserRecord × RouteResponse :=
  (store, { status := 200, body := RouteBody.userList (findAll store) })

/-- Embeds the `GET /users/:id` handler: findById, respond 200 with the
document or null. -/
def getUserById (store : List UserRecord) (i : String) :
    List UserRecord × RouteResponse :=
  (store, { status := 200, body := jsonOfUser (findById store i) })

/-- Embeds the `POST /users` handler: save the new user, respond 201 with
the inserted document; a validation rejection propagates. -/
def postUsers (store : List UserRecord) (nextId : String) (body : UserBody) :
    Except String (List UserRecord × RouteResponse) :=
  (saveNewUser nextId body).map fun u =>
    (store ++ [u], { status := 201, body := RouteBody.user u })

/-- Embeds the `PUT /users/:id` handler as written: `updateOne` is called
with the filter object whose single property is literally named `id`
(object shorthand for the route parameter), then `findById(id)` is
re-queried and its result returned with status 200. -/
def putUserById (store : List UserRecord) (i : String) (body : UserBody) :
    List UserRecord × RouteResponse :=
  let store2 := updateOne [("id", FieldVal.str i)] body store
  (store2, { status := 200, body := jsonOfUser (findById store2 i) })

/-- Embeds the `DELETE /users/:id` handler: findByIdAndDelete, respond 200
with the deleted document or null. -/
def deleteUserById (store : List UserRecord) (i : String) :
    List UserRecord × RouteResponse :=
  let p := findByIdAndDelete store i
  (p.1, { status := 200, body := jsonOfUser p.2 })

/-!
Concrete fixtures used by witnesses and counterexamples.
-/

/-- A fresh facade state (endpoint bound, GET verb, nothing dispatched). -/
def s0 : ApiCallState :=
  { endpoint := "https://reqres.in/api/users?page=2", verb := AgentVerb.get }

/-- A concrete 200 transport response. -/
def r200 : Response :=
  { statusCode := 200,
    body := SendVal.obj [("name", "Krishna"), ("age", "21"), ("address", "Homeless")],
    text := "", headers := [("Content-Type", "application/json")],
    type := "application/json" }

/-- A concrete onfulfilled handler returning a non-response value. -/
def f0 : Response → ResVal := fun _ => ResVal.handlerValue "fulfilled"

/-- A concrete onrejected handler returning a non-response value. -/
def g0 : String → ResVal := fun _ => ResVal.handlerValue "rejected"

/-- A concrete stored user document. -/
def u1 : UserRecord :=
  { _id := "1", name := "A", job := "B", age := 30, isMarried := true }

/-- A concrete replacement body for `PUT /users/1`. -/
def putBody : UserBody :=
  { name := some "X", job := some "Y", age := some 40 }

/-!
Theorems settling the claims.
-/

/-- C1: the claim says construction succeeds for all eight enumerated
methods; in the code the switch has no `PATCH` case (its intended case is a
duplicated `POST` label guarding the dead `patch` branch), so constructing
with the enumerated value `PATCH` throws the invalid-method error, while
the other seven enumerated methods construct and a value outside the
enumeration fails as specified. -/
theorem c1_patch_construction_fails :
    mkApiCall ("e") ("PATCH") = Except.error ("Invalid HTTP method provided.") ∧
    mkApiCall ("e") ("GET") = Except.ok { endpoint := "e", verb := AgentVerb.get } ∧
    mkApiCall ("e") ("POST") = Except.ok { endpoint := "e", verb := AgentVerb.post } ∧
    mkApiCall ("e") ("PUT") = Except.ok { endpoint := "e", verb := AgentVerb.put } ∧
    mkApiCall ("e") ("DELETE") = Except.ok { endpoint := "e", verb := AgentVerb.delete } ∧
    mkApiCall ("e") ("HEAD") = Except.ok { endpoint := "e", verb := AgentVerb.head } ∧
    mkApiCall ("e") ("OPTIONS") = Except.ok { endpoint := "e", verb := AgentVerb.options } ∧
    mkApiCall ("e") ("TRACE") = Except.ok { endpoint := "e", verb := AgentVerb.trace } ∧
    mkApiCall ("e") ("CONNECT") = Except.error ("Invalid HTTP method provided.") ∧
    "PATCH" ∈ apiMethodsValues := by
  refine ⟨rfl, rfl, rfl, rfl, rfl, rfl, rfl, rfl, rfl, ?_⟩
  decide

/-- C2: the claim says each configuration method mutates exactly the field
it names; in the code `setAccept` and `setType` pass their argument to
`req.send`, mutating the body and leaving the accept and content-type
fields untouched, and `setQueryParam` appends query pairs literally named
`key` and `value` instead of the given key-value pair. -/
theorem c2_config_methods_mutate_wrong_field :
    (ApiCall.setAccept s0 ("json")).req.accept = none ∧
    (ApiCall.setAccept s0 ("json")).req.bodySends = [SendVal.str "json"] ∧
    (ApiCall.setType s0 ("json")).req.contentType = none ∧
    (ApiCall.setType s0 ("json")).req.bodySends = [SendVal.str "json"] ∧
    (ApiCall.setQueryParam s0 ("page") ("2")).req.query =
      [("key", "page"), ("value", "2")] ∧
    (ApiCall.setHeader s0 ("k") ("v")).req =
      { s0.req with headers := [("k", "v")] } := by
  exact ⟨rfl, rfl, rfl, rfl, rfl, rfl⟩

/-- C3 counterexample: on a facade with no resolved terminal call,
`getRawResponse` — listed by the claim among the accessors that must fail —
does not fail with the uninitialized-response error; it returns the absent
response. -/
theorem c3_counterexample_getRawResponse :
    ApiCall.getRawResponse s0 = Except.ok none ∧
    ApiCall.getRawResponse s0 ≠ Except.error uninitMsg :=
  ⟨rfl, fun h => Except.noConfusion h⟩

/-- C3 amended: before any terminal call has resolved, every guarded
response accessor fails with the uninitialized-response error, while
`getRawResponse` returns the absent response without failing. -/
theorem c3_accessors_before_dispatch (s : ApiCallState) (h : s.res = none) :
    ApiCall.getResponseBody s = Except.error uninitMsg ∧
    ApiCall.getResponseHeaders s = Except.error uninitMsg ∧
    ApiCall.getResponseStatusCode s = Except.error uninitMsg ∧
    ApiCall.getResponseText s = Except.error uninitMsg ∧
    ApiCall.getResponseContentType s = Except.error uninitMsg ∧
    (∀ headerName, ApiCall.getResponseHeader s headerName = Except.error uninitMsg) ∧
    ApiCall.clientErrorResponse s = Except.error uninitMsg ∧
    ApiCall.serverErrorResponse s = Except.error uninitMsg ∧
    ApiCall.okResponse s = Except.error uninitMsg ∧
    ApiCall.unAuthorizedResponse s = Except.error uninitMsg ∧
    ApiCall.getXHR s = Except.error uninitMsg ∧
    ApiCall.getRawResponse s = Except.ok none := by
  simp [ApiCall.getResponseBody, ApiCall.getResponseHeaders,
    ApiCall.getResponseStatusCode, ApiCall.getResponseText,
    ApiCall.getResponseContentType, ApiCall.getResponseHeader,
    ApiCall.clientErrorResponse, ApiCall.serverErrorResponse,
    ApiCall.okResponse, ApiCall.unAuthorizedResponse, ApiCall.getXHR,
    ApiCall.getRawResponse, guardedRead, h]

/-- C3 witness: the concrete fresh facade, on which nothing has been
dispatched. -/
theorem c3_accessors_before_dispatch_witness :
    s0.res = none ∧
    (ApiCall.getResponseBody s0 = Except.error uninitMsg ∧
     ApiCall.getResponseHeaders s0 = Except.error uninitMsg ∧
     ApiCall.getResponseStatusCode s0 = Except.error uninitMsg ∧
     ApiCall.getResponseText s0 = Except.error uninitMsg ∧
     ApiCall.getResponseContentType s0 = Except.error uninitMsg ∧
     (∀ headerName, ApiCall.getResponseHeader s0 headerName = Except.error uninitMsg) ∧
     ApiCall.clientErrorResponse s0 = Except.error uninitMsg ∧
     ApiCall.serverErrorResponse s0 = Except.error uninitMsg ∧
     ApiCall.okResponse s0 = Except.error uninitMsg ∧
     ApiCall.unAuthorizedResponse s0 = Except.error uninitMsg ∧
     ApiCall.getXHR s0 = Except.error uninitMsg ∧
     ApiCall.getRawResponse s0 = Except.ok none) :=
  ⟨rfl, c3_accessors_before_dispatch s0 rfl⟩

/-- C4: when `done` with no handlers resolves, the resolved value is the
transport response itself and `getResponseStatusCode` afterwards returns
exactly its status. -/
theorem c4_done_records_status (s s2 : ApiCallState) (tr : Transport) (v : ResVal)
    (h : ApiCall.done s tr none none = Except.ok (s2, v)) :
    ∃ r : Response, testOutcome s.req tr = Except.ok r ∧ v = ResVal.response r ∧
      ApiCall.getResponseStatusCode s2 = Except.ok (some r.statusCode) := by
  unfold ApiCall.done at h
  cases hto : testOutcome s.req tr with
  | error e => rw [hto] at h; simp [promThen] at h
  | ok r =>
    rw [hto] at h
    simp [promThen] at h
    obtain ⟨hs2, hv⟩ := h
    subst hs2
    subst hv
    exact ⟨r, rfl, rfl, rfl⟩

/-- C4 witness: a concrete resolved dispatch against a 200 response records
status 200. -/
theorem c4_done_records_status_witness :
    ApiCall.done s0 (Transport.ok r200) none none =
      Except.ok ({ s0 with res := some (ResVal.response r200) }, ResVal.response r200) ∧
    ∃ r : Response, testOutcome s0.req (Transport.ok r200) = Except.ok r ∧
      ResVal.response r200 = ResVal.response r ∧
      ApiCall.getResponseStatusCode { s0 with res := some (ResVal.response r200) } =
        Except.ok (some r.statusCode) :=
  ⟨rfl, c4_done_records_status s0 _ (Transport.ok r200) _ rfl⟩

/-- C5: dispatched against a 200 response, a facade that registered
`expectStatus 200` resolves with the response, and one that registered
`expectStatus 404` rejects with the expected-vs-actual mismatch message. -/
theorem c5_expectStatus_against_200 (s : ApiCallState) (r : Response)
    (hA : s.req.asserts = []) (hr : r.statusCode = 200) :
    ApiCall.done (ApiCall.expectStatus s 200) (Transport.ok r) none none =
      Except.ok ({ s with req := s.req.expect (Assert.status 200)
                          res := some (ResVal.response r) }, ResVal.response r) ∧
    ApiCall.done (ApiCall.expectStatus s 404) (Transport.ok r) none none =
      Except.error (statusMismatchMsg 404 200) := by
  constructor
  · simp [ApiCall.done, ApiCall.expectStatus, Test.expect, testOutcome,
      runAsserts, runAssert, promThen, hA, hr]
  · simp [ApiCall.done, ApiCall.expectStatus, Test.expect, testOutcome,
      runAsserts, runAssert, promThen, hA, hr]

/-- C5 witness: the concrete fresh facade against the concrete 200
response. -/
theorem c5_expectStatus_against_200_witness :
    s0.req.asserts = [] ∧ r200.statusCode = 200 ∧
    (ApiCall.done (ApiCall.expectStatus s0 200) (Transport.ok r200) none none =
      Except.ok ({ s0 with req := s0.req.expect (Assert.status 200)
                           res := some (ResVal.response r200) }, ResVal.response r200) ∧
    ApiCall.done (ApiCall.expectStatus s0 404) (Transport.ok r200) none none =
      Except.error (statusMismatchMsg 404 200)) :=
  ⟨rfl, rfl, c5_expectStatus_against_200 s0 r200 rfl rfl⟩

/-- C6: the claim says PUT /users/:id replaces the stored record and
returns the updated record; in the code `updateOne` is filtered on a field
named `id`, which stored documents do not persist, so no document matches:
the store is unchanged and the old record is returned, even though the
record exists under `_id` and the body would have changed it. -/
theorem c6_put_does_not_replace :
    findById [u1] ("1") = some u1 ∧
    matchesFilter [("id", FieldVal.str "1")] u1 = false ∧
    putUserById [u1] ("1") putBody =
      ([u1], { status := 200, body := RouteBody.user u1 }) ∧
    applySet putBody u1 ≠ u1 := by
  refine ⟨rfl, rfl, rfl, ?_⟩
  decide

/-- C7: POST /users with the three required fields and no married flag
responds 201 with the created record carrying the store-assigned identity
key and the schema default `isMarried = true`. -/
theorem c7_post_applies_married_default (store : List UserRecord)
    (nextId n j : String) (a : Int) :
    postUsers store nextId { name := some n, job := some j, age := some a } =
      Except.ok
        (store ++ [{ _id := nextId, name := n, job := j, age := a, isMarried := true }],
         { status := 201,
           body := RouteBody.user
             { _id := nextId, name := n, job := j, age := a, isMarried := true } }) :=
  rfl

/-- C8: for an id with no stored record, GET /users/:id and DELETE
/users/:id both respond 200 with a null body and leave the store
unchanged. -/
theorem c8_absent_record_200_null (store : List UserRecord) (i : String)
    (h : findById store i = none) :
    getUserById store i = (store, { status := 200, body := RouteBody.null }) ∧
    deleteUserById store i = (store, { status := 200, body := RouteBody.null }) := by
  simp [getUserById, deleteUserById, findByIdAndDelete, jsonOfUser, h]

/-- C8 witness: the empty store at a concrete id. -/
theorem c8_absent_record_200_null_witness :
    findById [] ("nope") = none ∧
    (getUserById [] ("nope") = ([], { status := 200, body := RouteBody.null }) ∧
     deleteUserById [] ("nope") = ([], { status := 200, body := RouteBody.null })) :=
  ⟨rfl, c8_absent_record_200_null [] ("nope") rfl⟩

/-- C9: `end` returns without assigning the stored response: the facade
state is unchanged, so on a facade with no resolved `done` the guarded
accessors still fail with the uninitialized-response error after `end`
dispatches. -/
theorem c9_end_never_assigns_res (s : ApiCallState) (tr : Transport)
    (h : s.res = none) :
    (ApiCall.endCall s tr).1 = s ∧
    (ApiCall.endCall s tr).1.res = none ∧
    ApiCall.getResponseBody (ApiCall.endCall s tr).1 = Except.error uninitMsg ∧
    ApiCall.getResponseStatusCode (ApiCall.endCall s tr).1 = Except.error uninitMsg := by
  refine ⟨rfl, h, ?_, ?_⟩
  · simp [ApiCall.getResponseBody, guardedRead, ApiCall.endCall, h]
  · simp [ApiCall.getResponseStatusCode, guardedRead, ApiCall.endCall, h]

/-- C9 witness: the concrete fresh facade dispatched through `end` against
the concrete 200 response. -/
theorem c9_end_never_assigns_res_witness :
    s0.res = none ∧
    ((ApiCall.endCall s0 (Transport.ok r200)).1 = s0 ∧
     (ApiCall.endCall s0 (Transport.ok r200)).1.res = none ∧
     ApiCall.getResponseBody (ApiCall.endCall s0 (Transport.ok r200)).1 =
       Except.error uninitMsg ∧
     ApiCall.getResponseStatusCode (ApiCall.endCall s0 (Transport.ok r200)).1 =
       Except.error uninitMsg) :=
  ⟨rfl, c9_end_never_assigns_res s0 (Transport.ok r200) rfl⟩

/-- C10: `done` stores and returns the handler's return value: on a
resolved dispatch the onfulfilled result replaces the response as the
stored value, and on a rejected dispatch a supplied onrejected handler's
result becomes the stored value. -/
theorem c10_done_stores_handler_value (s : ApiCallState) (tr : Transport) :
    (∀ (f : Response → ResVal) (g : Option (String → ResVal)) (r : Response),
        testOutcome s.req tr = Except.ok r →
        ApiCall.done s tr (some f) g =
          Except.ok ({ s with res := some (f r) }, f r)) ∧
    (∀ (f : Option (Response → ResVal)) (g : String → ResVal) (e : String),
        testOutcome s.req tr = Except.error e →
        ApiCall.done s tr f (some g) =
          Except.ok ({ s with res := some (g e) }, g e)) := by
  constructor
  · intro f g r hr
    simp [ApiCall.done, promThen, hr]
  · intro f g e he
    simp [ApiCall.done, promThen, he]

/-- C10 witness: concrete handlers on a resolved and on a rejected
dispatch. -/
theorem c10_done_stores_handler_value_witness :
    ApiCall.done s0 (Transport.ok r200) (some f0) none =
      Except.ok ({ s0 with res := some (f0 r200) }, f0 r200) ∧
    ApiCall.done s0 (Transport.err ("boom")) none (some g0) =
      Except.ok ({ s0 with res := some (g0 "boom") }, g0 "boom") :=
  ⟨(c10_done_stores_handler_value s0 (Transport.ok r200)).1 f0 none r200 rfl,
   (c10_done_stores_handler_value s0 (Transport.err ("boom"))).2 none g0 ("boom") rfl⟩

end ESA
